import Mathlib

/-!
# Photo-Booth frontend: verified model of the session/polling state machine

Shallow embedding of `src/App.tsx`. The component holds React state
(`isCapturing`, `countdown`, `capturedImages`, `status`, `error`,
`currentFrame`, `selectedImage`) and four network-facing handlers
(`fetchImages`, `startCapture`, `stopCapture`, and the poll-tick callback
installed by `pollCaptureStatus` via `setInterval`).

The embedding makes the JavaScript/React execution model explicit:

* Each network call's outcome (2xx with body, non-2xx response, transport
  error) is a `FetchResult` parameter of the handler, and each handler
  invocation is one atomic step (the event loop is single threaded).
* `setInterval` allocates a fresh timer id and adds it to the set of active
  intervals; `clearInterval` removes an id (clearing `undefined` or an
  already-cleared id is a no-op, as in JavaScript).
* The component body declares `let pollInterval` anew on every render, and
  every handler closure captures the `pollInterval` variable of the render
  that created it.  The model keeps a render-generation counter `gen`, one
  (write-once) cell per generation in `cells`, and records with every
  active interval the generation whose cell its callback captured.  Every
  handler run ends in a re-render (`bumpGen`), as any `setState` does.
* Click events run the handler of the most recent render, so a `clickStart`
  event is enabled exactly when the start button is rendered
  (`isCapturing = false`), and `clickStop` when `isCapturing = true`.
-/

/-- Interface `CapturedImage` from `App.tsx`: one gallery entry. -/
structure CapturedImage where
  id : String
  url : String
  timestamp : String
deriving DecidableEq, Repr

/-- Interface `CaptureStatus` from `App.tsx`: one polled status snapshot. -/
structure CaptureStatus where
  active : Bool
  countdown : Option Int
  status : String
  frame : Option String
deriving DecidableEq, Repr

/-- The outcome of one `fetch` call: a 2xx response with parsed body,
a non-2xx response (`response.ok` false, handler throws `Server error`),
or a transport-level failure (the promise rejects). -/
inductive FetchResult (α : Type) where
  | success (body : α)
  | httpFailure
  | connectFailure
deriving DecidableEq, Repr

/-- Whether the fetch reached the
`try` block's tail. -/
def FetchResult.isSuccess {α : Type} : FetchResult α → Bool
  | FetchResult.success _ => true
  | _ => false

/-- The React state of the `App` component (one `useState` per field). -/
structure AppState where
  isCapturing : Bool
  countdown : Option Int
  capturedImages : List CapturedImage
  status : String
  error : Option String
  currentFrame : Option String
  selectedImage : Option CapturedImage
deriving DecidableEq, Repr

/-- The whole world: component state plus the browser's timer table and the
per-render `pollInterval` cells.

* `intervals` — the active intervals, as pairs `(timer id, generation of the
  render whose `pollInterval` variable the tick callback captured)`.
* `nextId` — the next fresh timer id `setInterval` will return.
* `cells` — assignments to `pollInterval` variables, keyed by render
  generation; a generation with no entry has `pollInterval = undefined`.
* `gen` — the current render generation.
* `fetchCalls` — how many times `fetchImages` has been entered (the
  observable "Gallery Synchronizer was invoked" counter). -/
structure World where
  app : AppState
  intervals : List (Nat × Nat)
  nextId : Nat
  cells : List (Nat × Nat)
  gen : Nat
  fetchCalls : Nat
deriving DecidableEq, Repr

/-- Reading a render generation's `pollInterval` cell. -/
def cellsLookup (cs : List (Nat × Nat)) (g : Nat) : Option Nat :=
  match cs with
  | [] => none
  | c :: rest => if c.fst = g then some c.snd else cellsLookup rest g

/-- JavaScript `clearInterval`: removes the timer with the given id; called
on `undefined` (`none`) or a stale id it is a no-op. -/
def clearInterval (ivs : List (Nat × Nat)) (h : Option Nat) : List (Nat × Nat) :=
  match h with
  | none => ivs
  | some i => ivs.filter (fun p => p.fst != i)

/-- Handler `fetchImages` (App.tsx lines 30-43), given the outcome of
`GET /images`: clears `error`, then on success replaces `capturedImages`
with the response body wholesale; on any failure sets the connection error
message and leaves `capturedImages` untouched. -/
def fetchImages (w : World) (res : FetchResult (List CapturedImage)) : World :=
  let w1 := { w with fetchCalls := w.fetchCalls + 1,
                     app := { w.app with error := none } }
  match res with
  | FetchResult.success data =>
      { w1 with app := { w1.app with capturedImages := data } }
  | _ =>
      { w1 with app := { w1.app with error := some "Unable to connect to the photo booth server. Please make sure the backend server is running." } }

/-- Handler `pollCaptureStatus` (App.tsx lines 90-111): `setInterval` allocates a
fresh timer and the handler assigns its id to the `pollInterval` variable of
render generation `g` (the render that created the enclosing closure). -/
def pollCaptureStatus (w : World) (g : Nat) : World :=
  { w with intervals := (w.nextId, g) :: w.intervals,
           cells := (g, w.nextId) :: w.cells,
           nextId := w.nextId + 1 }

/-- Handler `startCapture` (App.tsx lines 45-64), given the outcome of
`POST /start-capture`: clears `error`, sets `isCapturing := true` and the
starting status; on success calls `pollCaptureStatus` (whose closure lives
in the render generation `w.gen` current at the click); on failure sets the
failure status and error and resets `isCapturing := false`. -/
def startCapture (w : World) (res : FetchResult Unit) : World :=
  let app1 := { w.app with error := none,
                           isCapturing := true,
                           status := "Starting capture session..." }
  match res with
  | FetchResult.success _ => pollCaptureStatus { w with app := app1 } w.gen
  | _ =>
      { w with app := { app1 with status := "Failed to start capture",
                                  error := some "Unable to start capture. Please make sure the backend server is running.",
                                  isCapturing := false } }

/-- Handler `stopCapture` (App.tsx lines 66-86), given the outcome of
`POST /stop-capture`: clears `error`, sets the stopping status; on success
sets `isCapturing := false`, the stopped status, and calls
`clearInterval(pollInterval)` where `pollInterval` is the variable of the
render generation `w.gen` current at the click; on failure sets the failure
status and error and `isCapturing := false` (and does not touch the
interval). -/
def stopCapture (w : World) (res : FetchResult Unit) : World :=
  let app1 := { w.app with error := none,
                           status := "Stopping capture session..." }
  match res with
  | FetchResult.success _ =>
      { w with app := { app1 with isCapturing := false,
                                  status := "Capture session stopped" },
               intervals := clearInterval w.intervals (cellsLookup w.cells w.gen) }
  | _ =>
      { w with app := { app1 with status := "Failed to stop capture",
                                  error := some "Unable to stop capture. Please make sure the backend server is running.",
                                  isCapturing := false } }

/-- The `setInterval` callback inside `pollCaptureStatus` (App.tsx
lines 91-109), for the interval whose closure captured the `pollInterval`
cell of generation `g`; `res` is the outcome of `GET /capture-status` and
`gres` the outcome of the `GET /images` issued by `fetchImages` if the
snapshot triggers it.  On success it replaces `countdown`, `status`,
`currentFrame` with the snapshot's values and, if the status is
`"captured"`, invokes `fetchImages`.  On failure it sets the lost-connection
error, clears the captured `pollInterval` cell's timer, and sets
`isCapturing := false`. -/
def pollTick (w : World) (g : Nat) (res : FetchResult CaptureStatus)
    (gres : FetchResult (List CapturedImage)) : World :=
  match res with
  | FetchResult.success data =>
      let w1 := { w with app := { w.app with countdown := data.countdown,
                                             status := data.status,
                                             currentFrame := data.frame } }
      if data.status = "captured" then fetchImages w1 gres else w1
  | _ =>
      { w with app := { w.app with error := some "Lost connection to the photo booth server.",
                                   isCapturing := false },
               intervals := clearInterval w.intervals (cellsLookup w.cells g) }

/-- Handler `openModal` (App.tsx lines 113-115). -/
def openModal (w : World) (image : CapturedImage) : World :=
  { w with app := { w.app with selectedImage := some image } }

/-- Handler `closeModal` (App.tsx lines 117-119). -/
def closeModal (w : World) : World :=
  { w with app := { w.app with selectedImage := none } }

/-- One event of the single-threaded browser event loop. -/
inductive Event where
  | mountFetch (res : FetchResult (List CapturedImage))
  | clickStart (res : FetchResult Unit)
  | clickStop (res : FetchResult Unit)
  | tick (i g : Nat) (res : FetchResult CaptureStatus)
      (gres : FetchResult (List CapturedImage))
  | clickImage (image : CapturedImage)
  | clickModalBackdrop
deriving DecidableEq, Repr

/-- Every handler run ends in a re-render (each one calls `setState`). -/
def bumpGen (w : World) : World :=
  { w with gen := w.gen + 1 }

/-- Event application.  Guards reflect what the rendered UI makes possible:
the start button exists only while `isCapturing` is false, the stop button
only while it is true, an image click only for an image in the gallery, a
backdrop click only while the modal is open, and a tick fires only while
its interval is still installed.  A disabled event changes nothing. -/
def applyEvent (w : World) (e : Event) : World :=
  match e with
  | Event.mountFetch res => bumpGen (fetchImages w res)
  | Event.clickStart res =>
      if w.app.isCapturing then w else bumpGen (startCapture w res)
  | Event.clickStop res =>
      if w.app.isCapturing then bumpGen (stopCapture w res) else w
  | Event.tick i g res gres =>
      if (i, g) ∈ w.intervals then bumpGen (pollTick w g res gres) else w
  | Event.clickImage image =>
      if image ∈ w.app.capturedImages then bumpGen (openModal w image) else w
  | Event.clickModalBackdrop =>
      if w.app.selectedImage.isSome then bumpGen (closeModal w) else w

/-- The component's initial state (the `useState` initialisers). -/
def initialApp : AppState :=
  { isCapturing := false, countdown := none, capturedImages := [],
    status := "", error := none, currentFrame := none, selectedImage := none }

/-- The initial world: fresh component, no timers, generation 0. -/
def initialWorld : World :=
  { app := initialApp, intervals := [], nextId := 0, cells := [],
    gen := 0, fetchCalls := 0 }

/-- Running a sequence of events. -/
def runEvents (w : World) (es : List Event) : World :=
  es.foldl applyEvent w

/-- A world the program can actually be in. -/
def Reachable (w : World) : Prop :=
  ∃ es : List Event, runEvents initialWorld es = w

/-! ## Shared concrete worlds and snapshots used by witnesses -/

/-- The world after one successful start click: interval `(0, 0)` running. -/
def startedWorld : World :=
  runEvents initialWorld [Event.clickStart (FetchResult.success ())]

/-- A snapshot whose status is the terminal `"captured"`. -/
def snapshotCaptured : CaptureStatus :=
  { active := true, countdown := none, status := "captured", frame := none }

/-- A snapshot whose status is `"idle"`. -/
def snapshotIdle : CaptureStatus :=
  { active := true, countdown := none, status := "idle", frame := none }

/-! ## Frame lemmas for the handlers -/

theorem fetchImages_intervals (w : World) (res : FetchResult (List CapturedImage)) :
    (fetchImages w res).intervals = w.intervals := by
  cases res <;> rfl

theorem fetchImages_cells (w : World) (res : FetchResult (List CapturedImage)) :
    (fetchImages w res).cells = w.cells := by
  cases res <;> rfl

theorem fetchImages_gen (w : World) (res : FetchResult (List CapturedImage)) :
    (fetchImages w res).gen = w.gen := by
  cases res <;> rfl

theorem fetchImages_nextId (w : World) (res : FetchResult (List CapturedImage)) :
    (fetchImages w res).nextId = w.nextId := by
  cases res <;> rfl

theorem fetchImages_isCapturing (w : World) (res : FetchResult (List CapturedImage)) :
    (fetchImages w res).app.isCapturing = w.app.isCapturing := by
  cases res <;> rfl

theorem fetchImages_countdown (w : World) (res : FetchResult (List CapturedImage)) :
    (fetchImages w res).app.countdown = w.app.countdown := by
  cases res <;> rfl

theorem fetchImages_statusField (w : World) (res : FetchResult (List CapturedImage)) :
    (fetchImages w res).app.status = w.app.status := by
  cases res <;> rfl

theorem fetchImages_currentFrame (w : World) (res : FetchResult (List CapturedImage)) :
    (fetchImages w res).app.currentFrame = w.app.currentFrame := by
  cases res <;> rfl

theorem fetchImages_fetchCalls (w : World) (res : FetchResult (List CapturedImage)) :
    (fetchImages w res).fetchCalls = w.fetchCalls + 1 := by
  cases res <;> rfl

theorem clearInterval_subset (ivs : List (Nat × Nat)) (h : Option Nat)
    (p : Nat × Nat) (hp : p ∈ clearInterval ivs h) : p ∈ ivs := by
  cases h with
  | none => exact hp
  | some i => exact (List.mem_filter.1 hp).1

theorem pollTick_cells (w : World) (g : Nat) (res : FetchResult CaptureStatus)
    (gres : FetchResult (List CapturedImage)) :
    (pollTick w g res gres).cells = w.cells := by
  cases res with
  | success s =>
      by_cases h : s.status = "captured" <;> simp [pollTick, h, fetchImages_cells]
  | httpFailure => rfl
  | connectFailure => rfl

theorem pollTick_gen (w : World) (g : Nat) (res : FetchResult CaptureStatus)
    (gres : FetchResult (List CapturedImage)) :
    (pollTick w g res gres).gen = w.gen := by
  cases res with
  | success s =>
      by_cases h : s.status = "captured" <;> simp [pollTick, h, fetchImages_gen]
  | httpFailure => rfl
  | connectFailure => rfl

theorem pollTick_intervals_success (w : World) (g : Nat) (s : CaptureStatus)
    (gres : FetchResult (List CapturedImage)) :
    (pollTick w g (FetchResult.success s) gres).intervals = w.intervals := by
  by_cases h : s.status = "captured" <;> simp [pollTick, h, fetchImages_intervals]

theorem pollTick_intervals_subset (w : World) (g : Nat) (res : FetchResult CaptureStatus)
    (gres : FetchResult (List CapturedImage))
    (p : Nat × Nat) (hp : p ∈ (pollTick w g res gres).intervals) : p ∈ w.intervals := by
  cases res with
  | success s => rw [pollTick_intervals_success] at hp; exact hp
  | httpFailure => exact clearInterval_subset _ _ p hp
  | connectFailure => exact clearInterval_subset _ _ p hp

theorem stopCapture_cells (w : World) (res : FetchResult Unit) :
    (stopCapture w res).cells = w.cells := by
  cases res <;> rfl

theorem stopCapture_gen (w : World) (res : FetchResult Unit) :
    (stopCapture w res).gen = w.gen := by
  cases res <;> rfl

theorem stopCapture_intervals_subset (w : World) (res : FetchResult Unit)
    (p : Nat × Nat) (hp : p ∈ (stopCapture w res).intervals) : p ∈ w.intervals := by
  cases res with
  | success u => exact clearInterval_subset _ _ p hp
  | httpFailure => exact hp
  | connectFailure => exact hp

/-! ## The reachability invariant

Every active interval's callback captured the `pollInterval` cell of some
render generation, that cell still holds exactly that interval's id, and
all written cells belong to past generations. -/

/-- Inductive invariant of reachable worlds. -/
def WorldInv (w : World) : Prop :=
  (∀ p ∈ w.intervals, cellsLookup w.cells p.snd = some p.fst) ∧
  (∀ c ∈ w.cells, c.fst < w.gen)

theorem cellsLookup_lt_of_some {cs : List (Nat × Nat)} {n g i : Nat}
    (hb : ∀ c ∈ cs, c.fst < n) (hl : cellsLookup cs g = some i) : g < n := by
  induction cs with
  | nil => simp [cellsLookup] at hl
  | cons c rest ih =>
      rw [cellsLookup] at hl
      by_cases hc : c.fst = g
      · exact hc ▸ hb c (List.mem_cons_self c rest)
      · rw [if_neg hc] at hl
        exact ih (fun d hd => hb d (List.mem_cons_of_mem c hd)) hl

theorem cellsLookup_cons_ne {cs : List (Nat × Nat)} {k v g : Nat} (h : ¬ k = g) :
    cellsLookup ((k, v) :: cs) g = cellsLookup cs g := by
  simp [cellsLookup, h]

theorem inv_of_sub (w w' : World) (hw : WorldInv w)
    (hsub : ∀ p ∈ w'.intervals, p ∈ w.intervals)
    (hc : w'.cells = w.cells) (hg : w.gen ≤ w'.gen) : WorldInv w' := by
  constructor
  · intro p hp
    rw [hc]
    exact hw.1 p (hsub p hp)
  · intro c hcm
    rw [hc] at hcm
    exact lt_of_lt_of_le (hw.2 c hcm) hg

theorem inv_applyEvent (w : World) (e : Event) (hw : WorldInv w) :
    WorldInv (applyEvent w e) := by
  cases e with
  | mountFetch res =>
      apply inv_of_sub w _ hw
      · intro p hp
        simpa [applyEvent, bumpGen, fetchImages_intervals] using hp
      · simp [applyEvent, bumpGen, fetchImages_cells]
      · simp [applyEvent, bumpGen, fetchImages_gen]
  | clickStart res =>
      by_cases hcap : w.app.isCapturing
      · simpa [applyEvent, hcap] using hw
      · cases res with
        | success u =>
            obtain ⟨ha, hb⟩ := hw
            constructor
            · intro p hp
              simp only [applyEvent, if_neg hcap, bumpGen, startCapture,
                pollCaptureStatus] at hp ⊢
              rcases List.mem_cons.1 hp with h | h
              · subst h
                simp [cellsLookup]
              · have hpl := ha p h
                have hlt := cellsLookup_lt_of_some hb hpl
                rw [cellsLookup_cons_ne (by omega)]
                exact hpl
            · intro c hc
              simp only [applyEvent, if_neg hcap, bumpGen, startCapture,
                pollCaptureStatus] at hc ⊢
              rcases List.mem_cons.1 hc with h | h
              · subst h
                simp
              · exact lt_trans (hb c h) (Nat.lt_succ_self _)
        | httpFailure =>
            apply inv_of_sub w _ hw
            · intro p hp
              simpa [applyEvent, if_neg hcap, bumpGen, startCapture] using hp
            · simp [applyEvent, if_neg hcap, bumpGen, startCapture]
            · simp [applyEvent, if_neg hcap, bumpGen, startCapture]
        | connectFailure =>
            apply inv_of_sub w _ hw
            · intro p hp
              simpa [applyEvent, if_neg hcap, bumpGen, startCapture] using hp
            · simp [applyEvent, if_neg hcap, bumpGen, startCapture]
            · simp [applyEvent, if_neg hcap, bumpGen, startCapture]
  | clickStop res =>
      by_cases hcap : w.app.isCapturing
      · apply inv_of_sub w _ hw
        · intro p hp
          simp only [applyEvent, if_pos hcap, bumpGen] at hp
          exact stopCapture_intervals_subset w res p hp
        · simp [applyEvent, if_pos hcap, bumpGen, stopCapture_cells]
        · simp [applyEvent, if_pos hcap, bumpGen, stopCapture_gen]
      · simpa [applyEvent, hcap] using hw
  | tick i g res gres =>
      by_cases hmem : (i, g) ∈ w.intervals
      · apply inv_of_sub w _ hw
        · intro p hp
          simp only [applyEvent, if_pos hmem, bumpGen] at hp
          exact pollTick_intervals_subset w g res gres p hp
        · simp [applyEvent, if_pos hmem, bumpGen, pollTick_cells]
        · simp [applyEvent, if_pos hmem, bumpGen, pollTick_gen]
      · simpa [applyEvent, hmem] using hw
  | clickImage image =>
      by_cases hmem : image ∈ w.app.capturedImages
      · apply inv_of_sub w _ hw
        · intro p hp
          simpa [applyEvent, if_pos hmem, bumpGen, openModal] using hp
        · simp [applyEvent, if_pos hmem, bumpGen, openModal]
        · simp [applyEvent, if_pos hmem, bumpGen, openModal]
      · simpa [applyEvent, hmem] using hw
  | clickModalBackdrop =>
      by_cases hsel : w.app.selectedImage.isSome
      · apply inv_of_sub w _ hw
        · intro p hp
          simpa [applyEvent, if_pos hsel, bumpGen, closeModal] using hp
        · simp [applyEvent, if_pos hsel, bumpGen, closeModal]
        · simp [applyEvent, if_pos hsel, bumpGen, closeModal]
      · simpa [applyEvent, hsel] using hw

theorem inv_initialWorld : WorldInv initialWorld := by
  constructor <;> intro p hp <;> simp [initialWorld] at hp

theorem inv_runEvents (es : List Event) (w : World) (hw : WorldInv w) :
    WorldInv (runEvents w es) := by
  induction es generalizing w with
  | nil => exact hw
  | cons e rest ih => exact ih _ (inv_applyEvent w e hw)

theorem inv_reachable (w : World) (h : Reachable w) : WorldInv w := by
  obtain ⟨es, rfl⟩ := h
  exact inv_runEvents es initialWorld inv_initialWorld

/-! ## Further shared concrete worlds -/

/-- The world after a successful start click and one successful counting
tick: interval `(0, 0)` running, countdown shown. -/
def countingWorld : World :=
  runEvents initialWorld
    [Event.clickStart (FetchResult.success ()),
     Event.tick 0 0
       (FetchResult.success { active := true, countdown := some 3, status := "counting", frame := none })
       (FetchResult.success [])]

/-- The world after the initial mount-time gallery fetch failed: the
connection error banner is showing. -/
def erroredWorld : World :=
  runEvents initialWorld [Event.mountFetch FetchResult.httpFailure]

/-- A helper equation: on any failed poll fetch the tick callback sets the
lost-connection error, clears the timer stored in its captured
`pollInterval` cell, and forces `isCapturing` off. -/
theorem pollTick_failure (w : World) (g : Nat) (res : FetchResult CaptureStatus)
    (gres : FetchResult (List CapturedImage)) (hfail : res.isSuccess = false) :
    pollTick w g res gres =
      { w with app := { w.app with error := some "Lost connection to the photo booth server.",
                                   isCapturing := false },
               intervals := clearInterval w.intervals (cellsLookup w.cells g) } := by
  cases res with
  | success s => simp [FetchResult.isSuccess] at hfail
  | httpFailure => rfl
  | connectFailure => rfl

/-! ## The claims -/

/-- Claim C1: for every active polling loop in a reachable world, a poll
tick whose status request fails sets the user-visible lost-connection
error, forces `isCapturing` to `false`, removes its own interval from the
active set, and thereafter the tick event for that interval is disabled
(applying it changes nothing), so no further tick of that loop fires. -/
theorem c1_pollFailure_failStop (w : World) (i g : Nat)
    (res : FetchResult CaptureStatus) (gres : FetchResult (List CapturedImage))
    (res2 : FetchResult CaptureStatus) (gres2 : FetchResult (List CapturedImage))
    (hreach : Reachable w) (hmem : (i, g) ∈ w.intervals)
    (hfail : res.isSuccess = false) :
    (applyEvent w (Event.tick i g res gres)).app.error =
        some "Lost connection to the photo booth server." ∧
    (applyEvent w (Event.tick i g res gres)).app.isCapturing = false ∧
    (i, g) ∉ (applyEvent w (Event.tick i g res gres)).intervals ∧
    applyEvent (applyEvent w (Event.tick i g res gres)) (Event.tick i g res2 gres2) =
      applyEvent w (Event.tick i g res gres) := by
  have hInv := inv_reachable w hreach
  have hlk : cellsLookup w.cells g = some i := hInv.1 (i, g) hmem
  have hw' : applyEvent w (Event.tick i g res gres) = bumpGen (pollTick w g res gres) := by
    simp [applyEvent, hmem]
  have hpt := pollTick_failure w g res gres hfail
  have hni : (i, g) ∉ (applyEvent w (Event.tick i g res gres)).intervals := by
    rw [hw', hpt]
    simp [bumpGen, hlk, clearInterval, List.mem_filter]
  refine ⟨?_, ?_, hni, ?_⟩
  · rw [hw', hpt]
    rfl
  · rw [hw', hpt]
    rfl
  · have h4 : applyEvent (applyEvent w (Event.tick i g res gres)) (Event.tick i g res2 gres2)
        = if (i, g) ∈ (applyEvent w (Event.tick i g res gres)).intervals
            then bumpGen (pollTick (applyEvent w (Event.tick i g res gres)) g res2 gres2)
            else applyEvent w (Event.tick i g res gres) := rfl
    rw [h4, if_neg hni]

/-- Claim C1 witness: in the concrete world with loop `(0, 0)` running
after a successful start, an HTTP-failing tick sets the error, stops the
session, uninstalls the interval, and a repeated tick event is a no-op. -/
theorem c1_pollFailure_failStop_witness :
    (applyEvent startedWorld (Event.tick 0 0 FetchResult.httpFailure (FetchResult.success []))).app.error =
        some "Lost connection to the photo booth server." ∧
    (applyEvent startedWorld (Event.tick 0 0 FetchResult.httpFailure (FetchResult.success []))).app.isCapturing = false ∧
    (0, 0) ∉ (applyEvent startedWorld (Event.tick 0 0 FetchResult.httpFailure (FetchResult.success []))).intervals ∧
    applyEvent (applyEvent startedWorld (Event.tick 0 0 FetchResult.httpFailure (FetchResult.success [])))
        (Event.tick 0 0 FetchResult.httpFailure (FetchResult.success [])) =
      applyEvent startedWorld (Event.tick 0 0 FetchResult.httpFailure (FetchResult.success [])) :=
  c1_pollFailure_failStop startedWorld 0 0 FetchResult.httpFailure (FetchResult.success [])
    FetchResult.httpFailure (FetchResult.success [])
    ⟨[Event.clickStart (FetchResult.success ())], rfl⟩ (by decide) rfl

/-- Claim C2 fails on the code (code bug): `stopCapture` calls
`clearInterval(pollInterval)`, but `pollInterval` is a `let` variable of
the component body, re-declared on every render; the stop click runs the
closure of a render later than the one whose variable received the timer
id (the re-render forced by `setIsCapturing(true)` happens before the stop
button can exist), so `clearInterval` receives `undefined` and the real
interval survives.  Evaluation at the failing trace: after
start(success) then stop(success), `isCapturing` is `false` and the status
is `"Capture session stopped"`, yet interval `(0, 0)` is still installed
and a further tick still fires and overwrites the status — the claim says
no tick may fire after a successful `stop()`. -/
theorem c2_stopLeavesLoopRunning_eval :
    (runEvents initialWorld
      [Event.clickStart (FetchResult.success ()),
       Event.clickStop (FetchResult.success ())]).app.isCapturing = false ∧
    (runEvents initialWorld
      [Event.clickStart (FetchResult.success ()),
       Event.clickStop (FetchResult.success ())]).app.status = "Capture session stopped" ∧
    (0, 0) ∈ (runEvents initialWorld
      [Event.clickStart (FetchResult.success ()),
       Event.clickStop (FetchResult.success ())]).intervals ∧
    (applyEvent
      (runEvents initialWorld
        [Event.clickStart (FetchResult.success ()),
         Event.clickStop (FetchResult.success ())])
      (Event.tick 0 0 (FetchResult.success snapshotIdle) (FetchResult.success []))).app.status =
      "idle" := by
  refine ⟨rfl, rfl, by decide, rfl⟩

/-- Claim C3 fails on the code (code bug): nothing guards `startCapture`
besides the UI rendering the start button only while `isCapturing` is
false, and a successful `stopCapture` does not actually cancel the running
interval (stale `pollInterval`, see C2), so after start(success),
stop(success), start(success) two intervals are concurrently active — the
claim says at most one polling loop is ever active. -/
theorem c3_twoConcurrentLoops_eval :
    (runEvents initialWorld
      [Event.clickStart (FetchResult.success ()),
       Event.clickStop (FetchResult.success ()),
       Event.clickStart (FetchResult.success ())]).intervals = [(1, 2), (0, 0)] := by
  decide

/-- Claim C4: every successful poll tick replaces `countdown`, `status`
and `currentFrame` with the snapshot values; in particular an absent
(`none`) countdown or frame in the snapshot clears the stored value
rather than retaining it, since the new values do not depend on the old
state. -/
theorem c4_snapshotReplace (w : World) (i g : Nat) (s : CaptureStatus)
    (gres : FetchResult (List CapturedImage)) (hmem : (i, g) ∈ w.intervals) :
    (applyEvent w (Event.tick i g (FetchResult.success s) gres)).app.countdown = s.countdown ∧
    (applyEvent w (Event.tick i g (FetchResult.success s) gres)).app.status = s.status ∧
    (applyEvent w (Event.tick i g (FetchResult.success s) gres)).app.currentFrame = s.frame := by
  have hw' : applyEvent w (Event.tick i g (FetchResult.success s) gres) =
      bumpGen (pollTick w g (FetchResult.success s) gres) := by
    simp [applyEvent, hmem]
  rw [hw']
  by_cases h : s.status = "captured" <;>
    simp [bumpGen, pollTick, h, fetchImages_countdown, fetchImages_statusField,
      fetchImages_currentFrame]

/-- Claim C4 witness: in the concrete world where countdown 3 is showing,
applying the idle snapshot (absent countdown and frame) clears the
countdown to `none` rather than retaining `some 3`. -/
theorem c4_snapshotReplace_witness :
    countingWorld.app.countdown = some 3 ∧
    ((applyEvent countingWorld
        (Event.tick 0 0 (FetchResult.success snapshotIdle) (FetchResult.success []))).app.countdown = none ∧
      (applyEvent countingWorld
        (Event.tick 0 0 (FetchResult.success snapshotIdle) (FetchResult.success []))).app.status = "idle" ∧
      (applyEvent countingWorld
        (Event.tick 0 0 (FetchResult.success snapshotIdle) (FetchResult.success []))).app.currentFrame = none) :=
  ⟨by decide,
   c4_snapshotReplace countingWorld 0 0 snapshotIdle (FetchResult.success []) (by decide)⟩

/-- Count of distinct transitions into the `"captured"` status along a
sequence of observed snapshot statuses, starting from a given previous
status (formalising the wording of claim C5). -/
def countCapturedTransitions (prev : String) : List String → Nat
  | [] => 0
  | s :: rest =>
      (if s = "captured" ∧ ¬ prev = "captured" then 1 else 0) +
        countCapturedTransitions s rest

/-- Claim C5 counterexample: the code invokes `fetchImages` on **every**
tick whose snapshot status is `"captured"`, not once per distinct
transition into `"captured"`.  Concretely, after a successful start and
two consecutive successful ticks both reporting `"captured"`, the status
sequence contains exactly one distinct transition into `"captured"` but
the Gallery Synchronizer has been invoked twice. -/
theorem c5_syncPerTransition_counterexample :
    (runEvents initialWorld
      [Event.clickStart (FetchResult.success ()),
       Event.tick 0 0 (FetchResult.success snapshotCaptured) (FetchResult.success []),
       Event.tick 0 0 (FetchResult.success snapshotCaptured) (FetchResult.success [])]).fetchCalls = 2 ∧
    countCapturedTransitions "" [snapshotCaptured.status, snapshotCaptured.status] = 1 := by
  refine ⟨rfl, by decide⟩

/-- Claim C5 amended: on every successful poll tick the Gallery
Synchronizer (`fetchImages`) is invoked exactly once if the snapshot
status is `"captured"` and not at all otherwise (hence at least once per
distinct transition into `"captured"`, and again on every consecutive
`"captured"` tick); the polling loop's interval set is unchanged (the
loop continues) and `isCapturing` is unchanged (so it remains `true`;
the session does not auto-stop). -/
theorem c5_capturedTickSyncs (w : World) (i g : Nat) (s : CaptureStatus)
    (gres : FetchResult (List CapturedImage)) (hmem : (i, g) ∈ w.intervals) :
    (applyEvent w (Event.tick i g (FetchResult.success s) gres)).fetchCalls =
        w.fetchCalls + (if s.status = "captured" then 1 else 0) ∧
    (applyEvent w (Event.tick i g (FetchResult.success s) gres)).intervals = w.intervals ∧
    (applyEvent w (Event.tick i g (FetchResult.success s) gres)).app.isCapturing =
        w.app.isCapturing := by
  have hw' : applyEvent w (Event.tick i g (FetchResult.success s) gres) =
      bumpGen (pollTick w g (FetchResult.success s) gres) := by
    simp [applyEvent, hmem]
  rw [hw']
  by_cases h : s.status = "captured" <;>
    simp [bumpGen, pollTick, h, fetchImages_fetchCalls, fetchImages_intervals,
      fetchImages_isCapturing]

/-- Claim C5 amended witness: a `"captured"` tick in the started world
invokes the Gallery Synchronizer exactly once, keeps interval `(0, 0)`
installed, and leaves `isCapturing` at `true`. -/
theorem c5_capturedTickSyncs_witness :
    (applyEvent startedWorld
        (Event.tick 0 0 (FetchResult.success snapshotCaptured) (FetchResult.success []))).fetchCalls = 1 ∧
    (applyEvent startedWorld
        (Event.tick 0 0 (FetchResult.success snapshotCaptured) (FetchResult.success []))).intervals = [(0, 0)] ∧
    (applyEvent startedWorld
        (Event.tick 0 0 (FetchResult.success snapshotCaptured) (FetchResult.success []))).app.isCapturing = true :=
  c5_capturedTickSyncs startedWorld 0 0 snapshotCaptured (FetchResult.success []) (by decide)

/-- Claim C6: a start click whose start request fails (non-2xx or
transport error) ends with status `"Failed to start capture"`, the
user-visible error set, `isCapturing` back at `false`, and no polling
loop started: the interval set is unchanged and no timer id was
allocated. -/
theorem c6_startFailure (w : World) (res : FetchResult Unit)
    (hidle : w.app.isCapturing = false) (hfail : res.isSuccess = false) :
    (applyEvent w (Event.clickStart res)).app.status = "Failed to start capture" ∧
    (applyEvent w (Event.clickStart res)).app.error =
        some "Unable to start capture. Please make sure the backend server is running." ∧
    (applyEvent w (Event.clickStart res)).app.isCapturing = false ∧
    (applyEvent w (Event.clickStart res)).intervals = w.intervals ∧
    (applyEvent w (Event.clickStart res)).nextId = w.nextId := by
  cases res with
  | success u => simp [FetchResult.isSuccess] at hfail
  | httpFailure => simp [applyEvent, hidle, bumpGen, startCapture]
  | connectFailure => simp [applyEvent, hidle, bumpGen, startCapture]

/-- Claim C6 witness: a failing start click on the fresh world sets the
failure status and error, leaves `isCapturing` false, and installs no
interval. -/
theorem c6_startFailure_witness :
    (applyEvent initialWorld (Event.clickStart FetchResult.httpFailure)).app.status =
        "Failed to start capture" ∧
    (applyEvent initialWorld (Event.clickStart FetchResult.httpFailure)).app.error =
        some "Unable to start capture. Please make sure the backend server is running." ∧
    (applyEvent initialWorld (Event.clickStart FetchResult.httpFailure)).app.isCapturing = false ∧
    (applyEvent initialWorld (Event.clickStart FetchResult.httpFailure)).intervals = [] ∧
    (applyEvent initialWorld (Event.clickStart FetchResult.httpFailure)).nextId = 0 :=
  c6_startFailure initialWorld FetchResult.httpFailure rfl rfl

/-- Claim C7: on a failed list-images request `fetchImages` sets the
user-visible cannot-connect error and leaves the previous `images`
sequence untouched (both for a non-2xx response and for a transport
error); on success the fetched collection replaces the sequence
wholesale and the error is cleared. -/
theorem c7_gallerySync (w : World) (data : List CapturedImage) :
    (fetchImages w (FetchResult.success data)).app.capturedImages = data ∧
    (fetchImages w (FetchResult.success data)).app.error = none ∧
    (fetchImages w FetchResult.httpFailure).app.capturedImages = w.app.capturedImages ∧
    (fetchImages w FetchResult.httpFailure).app.error =
        some "Unable to connect to the photo booth server. Please make sure the backend server is running." ∧
    (fetchImages w FetchResult.connectFailure).app.capturedImages = w.app.capturedImages ∧
    (fetchImages w FetchResult.connectFailure).app.error =
        some "Unable to connect to the photo booth server. Please make sure the backend server is running." :=
  ⟨rfl, rfl, rfl, rfl, rfl, rfl⟩

/-- Claim C8 counterexample: a successful poll tick does **not** clear the
error field — the tick success path never touches `error`.  Concretely:
start succeeds, a `"captured"` tick follows whose triggered gallery fetch
fails (setting the cannot-connect error), and then a further fully
successful poll tick (status `"idle"`) leaves that error in place instead
of clearing it. -/
theorem c8_tickKeepsError_counterexample :
    (runEvents initialWorld
      [Event.clickStart (FetchResult.success ()),
       Event.tick 0 0 (FetchResult.success snapshotCaptured) FetchResult.httpFailure]).app.error =
      some "Unable to connect to the photo booth server. Please make sure the backend server is running." ∧
    (runEvents initialWorld
      [Event.clickStart (FetchResult.success ()),
       Event.tick 0 0 (FetchResult.success snapshotCaptured) FetchResult.httpFailure,
       Event.tick 0 0 (FetchResult.success snapshotIdle) (FetchResult.success [])]).app.error =
      some "Unable to connect to the photo booth server. Please make sure the backend server is running." :=
  ⟨rfl, rfl⟩

/-- Claim C8 amended: each of `fetchImages`, `startCapture` and
`stopCapture` begins by clearing the error, so any successful such call
ends with `error = none`; every failure path overwrites the field with
the latest message (errors replace, they never accumulate — shown here
for the poll failure and start failure messages); but a successful poll
tick whose snapshot is not `"captured"` leaves the error field exactly as
it was — the tick success path never clears it. -/
theorem c8_errorReplacement (w : World) (g : Nat) (data : List CapturedImage)
    (s : CaptureStatus) (gres : FetchResult (List CapturedImage))
    (hs : ¬ s.status = "captured") :
    (fetchImages w (FetchResult.success data)).app.error = none ∧
    (startCapture w (FetchResult.success ())).app.error = none ∧
    (stopCapture w (FetchResult.success ())).app.error = none ∧
    (pollTick w g (FetchResult.success s) gres).app.error = w.app.error ∧
    (pollTick w g FetchResult.httpFailure gres).app.error =
        some "Lost connection to the photo booth server." ∧
    (startCapture w FetchResult.httpFailure).app.error =
        some "Unable to start capture. Please make sure the backend server is running." := by
  refine ⟨rfl, rfl, rfl, ?_, rfl, rfl⟩
  simp [pollTick, hs]

/-- Claim C8 amended witness: in the world whose mount-time gallery fetch
failed (error banner showing), a successful idle poll tick leaves the
error untouched, while successful start/stop/gallery calls clear it and a
failing poll overwrites it with the lost-connection message. -/
theorem c8_errorReplacement_witness :
    (fetchImages erroredWorld (FetchResult.success [])).app.error = none ∧
    (startCapture erroredWorld (FetchResult.success ())).app.error = none ∧
    (stopCapture erroredWorld (FetchResult.success ())).app.error = none ∧
    (pollTick erroredWorld 0 (FetchResult.success snapshotIdle) (FetchResult.success [])).app.error =
        some "Unable to connect to the photo booth server. Please make sure the backend server is running." ∧
    (pollTick erroredWorld 0 FetchResult.httpFailure (FetchResult.success [])).app.error =
        some "Lost connection to the photo booth server." ∧
    (startCapture erroredWorld FetchResult.httpFailure).app.error =
        some "Unable to start capture. Please make sure the backend server is running." :=
  c8_errorReplacement erroredWorld 0 [] snapshotIdle (FetchResult.success []) (by decide)

/-- Claim C9: calling `stopCapture` is safe in every state: the handler is
a total function (in particular `clearInterval` on an `undefined` or
already-cleared handle is a no-op, and the `catch` branch absorbs the
request failure rather than letting it propagate), and whatever the
outcome of the stop request, it leaves `isCapturing = false` — so calling
stop with no session active cannot crash and keeps `isCapturing` false. -/
theorem c9_stopAlwaysSafe (w : World) (res : FetchResult Unit) :
    (stopCapture w res).app.isCapturing = false := by
  cases res <;> rfl

/-- Claim C10: `openModal image` sets `selectedImage` to that image and
`closeModal` sets it back to `none`, and neither operation changes
`isCapturing`, `countdown`, `status`, `currentFrame`, `error` or the
`images` sequence. -/
theorem c10_modalFrame (w : World) (image : CapturedImage) :
    (openModal w image).app.selectedImage = some image ∧
    (closeModal w).app.selectedImage = none ∧
    (openModal w image).app.isCapturing = w.app.isCapturing ∧
    (openModal w image).app.countdown = w.app.countdown ∧
    (openModal w image).app.status = w.app.status ∧
    (openModal w image).app.currentFrame = w.app.currentFrame ∧
    (openModal w image).app.error = w.app.error ∧
    (openModal w image).app.capturedImages = w.app.capturedImages ∧
    (closeModal w).app.isCapturing = w.app.isCapturing ∧
    (closeModal w).app.countdown = w.app.countdown ∧
    (closeModal w).app.status = w.app.status ∧
    (closeModal w).app.currentFrame = w.app.currentFrame ∧
    (closeModal w).app.error = w.app.error ∧
    (closeModal w).app.capturedImages = w.app.capturedImages :=
  ⟨rfl, rfl, rfl, rfl, rfl, rfl, rfl, rfl, rfl, rfl, rfl, rfl, rfl, rfl⟩
